import Mathlib

/-!  Verification of the layered signal generator and scheduler of
`src/vortex_dwm_lpe.py` (SCTT-2026-33-0002).  Python floats are embedded as
exact real numbers, Python ints as `ℕ`/`ℤ`, byte strings as `List ℕ`.  The
Windows display plumbing (window handles, GDI calls, DWM flushes) is the
external sink; its observable outcomes per layer are modelled by an oracle of
per-layer events, following the branch structure of the source.  -/

/-- Embeds the module constant `SCTT_ALPHA = 0.0302011` (src/vortex_dwm_lpe.py
line 18), the temporal dispersion coefficient.  Floating-point literals are
embedded as exact reals. -/
noncomputable def SCTT_ALPHA : ℝ := 0.0302011

/-- Embeds the module constant `SCTT_LAYERS = 33` (line 19). -/
def SCTT_LAYERS : ℕ := 33

/-- Embeds `SCTT_CASCADE_FACTOR = (1 - np.exp(-SCTT_ALPHA * SCTT_LAYERS)) / SCTT_ALPHA`
(line 20). -/
noncomputable def SCTT_CASCADE_FACTOR : ℝ :=
  (1 - Real.exp (-SCTT_ALPHA * SCTT_LAYERS)) / SCTT_ALPHA

/-- Embeds the state set by `SCTT_VisualResonance.__init__` (lines 36-45): the
decay coefficient `self.alpha`, the layer count `self.layers` and the prime
timing windows `self.prime_windows`.  The two DWM blur constants also assigned
there belong to the external display sink and carry no logic. -/
structure SCTT_VisualResonance where
  alpha : ℝ
  layers : ℕ
  prime_windows : List ℕ

/-- Embeds the object built by `SCTT_VisualResonance()` from the source module
constants: `alpha = SCTT_ALPHA`, `layers = SCTT_LAYERS`, and the five prime
windows of line 41. -/
noncomputable def visual_resonance_source : SCTT_VisualResonance :=
  { alpha := SCTT_ALPHA
    layers := SCTT_LAYERS
    prime_windows := [10007, 10009, 10037, 10039, 10061] }

/-- Embeds the per-layer base energy `np.exp(-alpha * layer)`: the expression
computed at line 52 (as `base_energy`, with `self.alpha`) and again at line 211
where the driver records statistics (with the module constant `SCTT_ALPHA`).
Parametrized by the decay coefficient. -/
noncomputable def layerEnergy (alpha : ℝ) (layer : ℕ) : ℝ :=
  Real.exp (-alpha * layer)

/-- Embeds `SCTT_VisualResonance.calculate_visual_resonance` (lines 47-64):
exponential base decay times spatial and temporal sine modulation. -/
noncomputable def SCTT_VisualResonance.calculate_visual_resonance
    (self : SCTT_VisualResonance) (layer : ℕ) (x y : ℤ) : ℝ :=
  let base_energy := layerEnergy self.alpha layer
  let spatial_wavelength := 1 / self.alpha
  let spatial_factor := Real.sin (2 * Real.pi * ((x : ℝ) + (y : ℝ)) / spatial_wavelength)
  let temporal_phase := Real.sin (2 * Real.pi * layer / self.layers)
  base_energy * (1 + 0.3 * spatial_factor) * (1 + 0.2 * temporal_phase)

/-- Follows the spec's wording for `pixelResonance(layer, x, y)`:
`base * (1 + 0.3*spatialFactor) * (1 + 0.2*temporalFactor)` with
`base = exp(-α·layer)`, `spatialFactor = sin(2π(x+y)/wavelength)`,
`wavelength = 1/α`, `temporalFactor = sin(2π·layer/L)`, at the source
parameters α = SCTT_ALPHA and L = SCTT_LAYERS.  Written from the spec
sentence, to be compared with the source function. -/
noncomputable def pixelResonance_spec (layer : ℕ) (x y : ℤ) : ℝ :=
  Real.exp (-SCTT_ALPHA * layer)
    * (1 + 0.3 * Real.sin (2 * Real.pi * ((x : ℝ) + (y : ℝ)) / (1 / SCTT_ALPHA)))
    * (1 + 0.2 * Real.sin (2 * Real.pi * layer / SCTT_LAYERS))

/-- Claim C1: for every decay coefficient α > 0 and layer indices l1 < l2 in
[0, L), the base energy equals exp(-α·l) exactly (hence within any floating
tolerance) and is strictly decreasing in the layer index. -/
theorem claim_C1_layerEnergy_decay (alpha : ℝ) (l1 l2 : ℕ)
    (ha : 0 < alpha) (h12 : l1 < l2) (hL : l2 < SCTT_LAYERS) :
    layerEnergy alpha l1 = Real.exp (-(alpha * l1)) ∧
    layerEnergy alpha l2 < layerEnergy alpha l1 := by
  constructor
  · unfold layerEnergy; ring_nf
  · unfold layerEnergy
    apply Real.exp_lt_exp.mpr
    have hc : (l1 : ℝ) < (l2 : ℝ) := by exact_mod_cast h12
    nlinarith

/-- Witness for claim C1, at α = 1, l1 = 0, l2 = 1. -/
theorem claim_C1_witness :
    layerEnergy 1 0 = Real.exp (-(1 * ((0 : ℕ) : ℝ))) ∧
    layerEnergy 1 1 < layerEnergy 1 0 :=
  claim_C1_layerEnergy_decay 1 0 1 one_pos one_pos (by norm_num [SCTT_LAYERS])

/-- Claim C2: the source resonance function agrees with the spec formula for
every layer and all integer coordinates, and the concrete case
layer = 0, x = 0, y = 0 (with the source α and L) gives exactly 1. -/
theorem claim_C2_pixelResonance (layer : ℕ) (x y : ℤ) :
    visual_resonance_source.calculate_visual_resonance layer x y
      = pixelResonance_spec layer x y ∧
    visual_resonance_source.calculate_visual_resonance 0 0 0 = 1 := by
  constructor
  · simp only [SCTT_VisualResonance.calculate_visual_resonance, pixelResonance_spec,
      layerEnergy, visual_resonance_source]
  · simp only [SCTT_VisualResonance.calculate_visual_resonance, layerEnergy,
      visual_resonance_source]
    norm_num

/-- Claim C10: for any state with α > 0, every layer and all integer pixel
coordinates, the resonance lies between 0.56·exp(-α·layer) and
1.56·exp(-α·layer); in particular it is strictly positive and never
exceeds 1.56. -/
theorem claim_C10_resonance_bounds (s : SCTT_VisualResonance) (layer : ℕ) (x y : ℤ)
    (ha : 0 < s.alpha) :
    0.56 * Real.exp (-s.alpha * layer) ≤ s.calculate_visual_resonance layer x y ∧
    s.calculate_visual_resonance layer x y ≤ 1.56 * Real.exp (-s.alpha * layer) ∧
    0 < s.calculate_visual_resonance layer x y ∧
    s.calculate_visual_resonance layer x y ≤ 1.56 := by
  have hb : 0 < Real.exp (-s.alpha * layer) := Real.exp_pos _
  have hb1 : Real.exp (-s.alpha * layer) ≤ 1 := by
    apply Real.exp_le_one_iff.mpr
    have h0 : 0 ≤ s.alpha * layer := mul_nonneg ha.le (Nat.cast_nonneg _)
    nlinarith
  simp only [SCTT_VisualResonance.calculate_visual_resonance, layerEnergy]
  set s1 := Real.sin (2 * Real.pi * ((x : ℝ) + (y : ℝ)) / (1 / s.alpha)) with hs1
  set s2 := Real.sin (2 * Real.pi * layer / s.layers) with hs2
  have h1 : -1 ≤ s1 := Real.neg_one_le_sin _
  have h2 : s1 ≤ 1 := Real.sin_le_one _
  have h3 : -1 ≤ s2 := Real.neg_one_le_sin _
  have h4 : s2 ≤ 1 := Real.sin_le_one _
  have k1 : (0.7 : ℝ) ≤ 1 + 0.3 * s1 := by linarith
  have k2 : 1 + 0.3 * s1 ≤ 1.3 := by linarith
  have k3 : (0.8 : ℝ) ≤ 1 + 0.2 * s2 := by linarith
  have k4 : 1 + 0.2 * s2 ≤ 1.2 := by linarith
  have k5 : (0 : ℝ) < 1 + 0.3 * s1 := by linarith
  have k6 : (0 : ℝ) < 1 + 0.2 * s2 := by linarith
  have p1 : (0.7 * 0.8 : ℝ) ≤ (1 + 0.3 * s1) * (1 + 0.2 * s2) :=
    mul_le_mul k1 k3 (by norm_num) (by linarith)
  have p2 : (1 + 0.3 * s1) * (1 + 0.2 * s2) ≤ 1.3 * 1.2 :=
    mul_le_mul k2 k4 k6.le (by norm_num)
  have low : 0.56 * Real.exp (-s.alpha * layer)
      ≤ Real.exp (-s.alpha * layer) * (1 + 0.3 * s1) * (1 + 0.2 * s2) := by
    nlinarith [mul_le_mul_of_nonneg_left p1 hb.le]
  have high : Real.exp (-s.alpha * layer) * (1 + 0.3 * s1) * (1 + 0.2 * s2)
      ≤ 1.56 * Real.exp (-s.alpha * layer) := by
    nlinarith [mul_le_mul_of_nonneg_left p2 hb.le]
  refine ⟨low, high, ?_, ?_⟩
  · exact mul_pos (mul_pos hb k5) k6
  · linarith [high, hb1]

/-- Witness for claim C10, at the source state (α = 0.0302011 > 0), layer 0,
pixel (0, 0). -/
theorem claim_C10_witness :
    0.56 * Real.exp (-visual_resonance_source.alpha * ((0 : ℕ) : ℝ))
      ≤ visual_resonance_source.calculate_visual_resonance 0 0 0 ∧
    visual_resonance_source.calculate_visual_resonance 0 0 0
      ≤ 1.56 * Real.exp (-visual_resonance_source.alpha * ((0 : ℕ) : ℝ)) ∧
    0 < visual_resonance_source.calculate_visual_resonance 0 0 0 ∧
    visual_resonance_source.calculate_visual_resonance 0 0 0 ≤ 1.56 :=
  claim_C10_resonance_bounds visual_resonance_source 0 0 0
    (by norm_num [visual_resonance_source, SCTT_ALPHA])

/-- Embeds `SCTT_VisualResonance.prime_resonance_timing` (lines 100-110).  The
source reads the clock as `current_us = int(time.time() * 1e6)`; that
nonnegative microsecond reading is here the argument `current_us`, so the
function is the pure remainder computation of lines 106-110.  The returned
seconds value `wait_us / 1e6` is an exact rational. -/
def SCTT_VisualResonance.prime_resonance_timing
    (self : SCTT_VisualResonance) (layer current_us : ℕ) : ℚ :=
  let prime := self.prime_windows.getD (layer % self.prime_windows.length) 0
  let wait_us := (prime - current_us % prime) % prime
  (wait_us : ℚ) / 1000000

/-- Follows the spec's `alignmentPeriods` sequence (the same five primes the
source stores in `prime_windows`). -/
def alignmentPeriods : List ℕ := [10007, 10009, 10037, 10039, 10061]

/-- Follows the spec's `period = alignmentPeriods[layer mod len(alignmentPeriods)]`. -/
def alignmentPeriod (layer : ℕ) : ℕ :=
  alignmentPeriods.getD (layer % alignmentPeriods.length) 0

/-- Follows the spec's wording for `nextAlignmentDelay(layer, nowMicros)`:
`wait = (period - (nowMicros mod period)) mod period`, returned as seconds.
Written from the spec sentence, to be compared with the source
`prime_resonance_timing`. -/
def nextAlignmentDelay (layer nowMicros : ℕ) : ℚ :=
  let period := alignmentPeriod layer
  let wait := (period - nowMicros % period) % period
  (wait : ℚ) / 1000000

/-- Helper: every alignment period selected by the rotation is one of the five
primes, hence positive. -/
theorem alignmentPeriod_pos (layer : ℕ) : 0 < alignmentPeriod layer := by
  have h : layer % 5 = 0 ∨ layer % 5 = 1 ∨ layer % 5 = 2 ∨ layer % 5 = 3 ∨ layer % 5 = 4 := by
    omega
  rcases h with h | h | h | h | h <;>
    simp [alignmentPeriod, alignmentPeriods, h]

/-- Claim C4: the source timing function equals the spec's
`nextAlignmentDelay` (same period table), the delay always lies in
[0, period/1e6), and any exact multiple of the period (in particular
nowMicros = 10007 at layer 0, see the witness) gets delay exactly 0. -/
theorem claim_C4_alignment_delay (layer now m : ℕ) :
    visual_resonance_source.prime_resonance_timing layer now
      = nextAlignmentDelay layer now ∧
    visual_resonance_source.prime_windows = alignmentPeriods ∧
    0 ≤ nextAlignmentDelay layer now ∧
    nextAlignmentDelay layer now < (alignmentPeriod layer : ℚ) / 1000000 ∧
    nextAlignmentDelay layer (alignmentPeriod layer * m) = 0 := by
  have hp : 0 < alignmentPeriod layer := alignmentPeriod_pos layer
  refine ⟨rfl, rfl, ?_, ?_, ?_⟩
  · simp only [nextAlignmentDelay]
    positivity
  · simp only [nextAlignmentDelay]
    have hw : (alignmentPeriod layer - now % alignmentPeriod layer) % alignmentPeriod layer
        < alignmentPeriod layer := Nat.mod_lt _ hp
    have hwq : (((alignmentPeriod layer - now % alignmentPeriod layer) %
        alignmentPeriod layer : ℕ) : ℚ) < (alignmentPeriod layer : ℚ) := by
      exact_mod_cast hw
    gcongr
  · simp only [nextAlignmentDelay]
    rw [Nat.mul_mod_right, Nat.sub_zero, Nat.mod_self]
    norm_num

/-- Witness for claim C4 (the theorem itself has no hypotheses; this instance
realizes the spec's concrete case layer = 0, nowMicros = 10007, period 10007,
with m = 1). -/
theorem claim_C4_witness :
    visual_resonance_source.prime_resonance_timing 0 10007 = 0 := by
  have h := (claim_C4_alignment_delay 0 10007 1).2.2.2.2
  have he : alignmentPeriod 0 * 1 = 10007 := by
    simp [alignmentPeriod, alignmentPeriods]
  rw [he] at h
  rw [(claim_C4_alignment_delay 0 10007 1).1, h]

/-- Models Python `int()` applied to a float: truncation toward zero. -/
noncomputable def pyTrunc (x : ℝ) : ℤ := if 0 ≤ x then ⌊x⌋ else ⌈x⌉

/-- Models Python `v & 0xFF` on an arbitrary (possibly negative) integer:
Python bitwise AND acts on the infinite twos-complement form, so masking with
0xFF is the true (floor-based) residue in [0, 256). -/
def pyMask255 (v : ℤ) : ℕ := (v.emod 256).toNat

/-- Embeds the per-pixel body of the double loop of
`create_resonant_pixel_buffer` (lines 76-96): the R, G, B, A bytes derived from
one resonance value — Python `int()` truncation, `& 0xFF` masking, then the XOR
with the layer-parity pattern (0xAA for even layers, 0x55 for odd); the alpha
byte stays 255 unmasked. -/
noncomputable def derive_pixel_bytes (layer : ℕ) (resonance : ℝ) : List ℕ :=
  let r := pyMask255 (pyTrunc (255 * resonance))
  let g := pyMask255 (pyTrunc (255 * Real.sin (resonance * Real.pi)))
  let b := pyMask255 (pyTrunc (255 * Real.cos (resonance * Real.pi)))
  let a := 255
  let pattern := if layer % 2 = 0 then 0xAA else 0x55
  [r ^^^ pattern, g ^^^ pattern, b ^^^ pattern, a]

/-- Follows the claim's (and spec's) wording for the byte derivation:
`floor(255·v) mod 256` — floor rounding, then a true floor-based modulo — with
the same XOR masking and alpha byte.  Written from the spec sentence, to be
compared with the source derivation `derive_pixel_bytes`. -/
noncomputable def derive_pixel_bytes_spec (layer : ℕ) (resonance : ℝ) : List ℕ :=
  let r := pyMask255 ⌊(255 * resonance : ℝ)⌋
  let g := pyMask255 ⌊(255 * Real.sin (resonance * Real.pi) : ℝ)⌋
  let b := pyMask255 ⌊(255 * Real.cos (resonance * Real.pi) : ℝ)⌋
  let a := 255
  let pattern := if layer % 2 = 0 then 0xAA else 0x55
  [r ^^^ pattern, g ^^^ pattern, b ^^^ pattern, a]

/-- Embeds `SCTT_VisualResonance.create_resonant_pixel_buffer` (lines 66-98):
the row-major RGBA byte list; the pixel at (x, y) occupies positions
`(y*width+x)*4 .. +3`, exactly the index arithmetic of line 79. -/
noncomputable def SCTT_VisualResonance.create_resonant_pixel_buffer
    (self : SCTT_VisualResonance) (layer width height : ℕ) : List ℕ :=
  (List.range height).flatMap fun y =>
    (List.range width).flatMap fun x =>
      derive_pixel_bytes layer (self.calculate_visual_resonance layer x y)

/-- Helper: sine of 7π/6 is -1/2. -/
theorem sin_seven_pi_div_six : Real.sin ((7 / 6 : ℝ) * Real.pi) = -(1 / 2) := by
  have h : (7 / 6 : ℝ) * Real.pi = Real.pi + Real.pi / 6 := by ring
  rw [h, Real.sin_add, Real.sin_pi, Real.cos_pi, Real.sin_pi_div_six]
  norm_num

/-- Counterexample to claim C3 as stated: at resonance value 7/6 the green
intermediate is 255·sin(7π/6) = -127.5, which Python `int()` truncates to
-127 (byte 129 before masking) while the claimed floor gives -128 (byte 128);
after the XOR the derived green bytes differ (43 vs 42 at an even layer), so
the source derivation is not the claimed floor-based one. -/
theorem claim_C3_counterexample :
    derive_pixel_bytes 0 (7 / 6) ≠ derive_pixel_bytes_spec 0 (7 / 6) := by
  have hv : (255 : ℝ) * Real.sin ((7 / 6 : ℝ) * Real.pi) = -(255 / 2) := by
    rw [sin_seven_pi_div_six]; ring
  have htr : pyTrunc (-(255 / 2 : ℝ)) = -127 := by
    unfold pyTrunc
    rw [if_neg (by norm_num)]
    exact Int.ceil_eq_iff.mpr (by constructor <;> norm_num)
  have hfl : ⌊(-(255 / 2 : ℝ))⌋ = -128 :=
    Int.floor_eq_iff.mpr (by constructor <;> norm_num)
  have hgc : pyMask255 (pyTrunc ((255 : ℝ) * Real.sin ((7 / 6 : ℝ) * Real.pi))) = 129 := by
    rw [hv, htr]; decide
  have hgs : pyMask255 ⌊((255 : ℝ) * Real.sin ((7 / 6 : ℝ) * Real.pi))⌋ = 128 := by
    rw [hv, hfl]; decide
  intro h
  have h1 := congrArg (fun l => l[1]?) h
  simp [derive_pixel_bytes, derive_pixel_bytes_spec, hgc, hgs] at h1

/-- Helper: flattening constant-length blocks over `List.range n` gives length n·c. -/
theorem flatMap_range_length (f : ℕ → List ℕ) (c : ℕ) (hc : ∀ i, (f i).length = c)
    (n : ℕ) : ((List.range n).flatMap f).length = n * c := by
  induction n with
  | zero => simp
  | succ k ih =>
    rw [List.range_succ, List.flatMap_append]
    simp [ih, hc, Nat.succ_mul]

/-- Helper: indexing into the flattening of constant-length blocks over
`List.range n` selects position j of block k at flat position k·c + j. -/
theorem flatMap_range_getElem (f : ℕ → List ℕ) (c : ℕ) (hc : ∀ i, (f i).length = c)
    (n k j : ℕ) (hk : k < n) (hj : j < c) :
    ((List.range n).flatMap f)[k * c + j]? = (f k)[j]? := by
  induction n with
  | zero => omega
  | succ m ih =>
    rw [List.range_succ, List.flatMap_append]
    simp only [List.flatMap_cons, List.flatMap_nil, List.append_nil]
    rcases Nat.lt_succ_iff_lt_or_eq.mp hk with h | h
    · rw [List.getElem?_append_left]
      · exact ih h
      · rw [flatMap_range_length f c hc]
        calc k * c + j < k * c + c := by omega
          _ = (k + 1) * c := (Nat.succ_mul k c).symm
          _ ≤ m * c := Nat.mul_le_mul_right c h
    · subst h
      rw [List.getElem?_append_right (by rw [flatMap_range_length f c hc]; omega)]
      rw [flatMap_range_length f c hc, Nat.add_sub_cancel_left]

/-- Helper: the per-pixel byte record always has exactly four entries. -/
theorem derive_pixel_bytes_length (layer : ℕ) (r : ℝ) :
    (derive_pixel_bytes layer r).length = 4 := by
  simp [derive_pixel_bytes]

/-- Helper: the masked value of any integer is a byte. -/
theorem pyMask255_lt (v : ℤ) : pyMask255 v < 256 := by
  unfold pyMask255
  have h1 : 0 ≤ v.emod 256 := Int.emod_nonneg v (by norm_num)
  have h2 : v.emod 256 < 256 := Int.emod_lt_of_pos v (by norm_num)
  omega

/-- Helper: XOR of a masked byte with a byte pattern stays a byte. -/
theorem pyMask255_xor_lt (v : ℤ) (p : ℕ) (hp : p < 256) : pyMask255 v ^^^ p < 256 := by
  have h1 : pyMask255 v < 2 ^ 8 := by simpa using pyMask255_lt v
  have h2 : p < 2 ^ 8 := by simpa using hp
  simpa using Nat.xor_lt_two_pow h1 h2

/-- Claim C3, amended: for every layer and pixel (x, y) of the width×height
frame, the buffer bytes at flat positions (y·width+x)·4+i are exactly the
four bytes derived from that pixel's resonance by truncation toward zero
(Python `int()`), a true modulo into [0, 256), and the layer-parity XOR mask;
the alpha byte is 255 unmasked and every derived byte is below 256. -/
theorem claim_C3_buffer_bytes (layer width height x y i : ℕ)
    (hx : x < width) (hy : y < height) (hi : i < 4) :
    (visual_resonance_source.create_resonant_pixel_buffer layer width height).length
      = width * height * 4 ∧
    (visual_resonance_source.create_resonant_pixel_buffer layer width height)[(y * width + x) * 4 + i]?
      = (derive_pixel_bytes layer (visual_resonance_source.calculate_visual_resonance layer x y))[i]? ∧
    (derive_pixel_bytes layer (visual_resonance_source.calculate_visual_resonance layer x y)).getD 3 0
      = 255 ∧
    (derive_pixel_bytes layer (visual_resonance_source.calculate_visual_resonance layer x y)).getD i 0
      < 256 := by
  have hrow : ∀ y' : ℕ,
      ((List.range width).flatMap fun x' =>
        derive_pixel_bytes layer
          (visual_resonance_source.calculate_visual_resonance layer x' y')).length
        = width * 4 :=
    fun y' => flatMap_range_length _ 4 (fun _ => derive_pixel_bytes_length _ _) width
  refine ⟨?_, ?_, ?_, ?_⟩
  · unfold SCTT_VisualResonance.create_resonant_pixel_buffer
    rw [flatMap_range_length _ (width * 4) hrow height]
    ring
  · unfold SCTT_VisualResonance.create_resonant_pixel_buffer
    have hidx : (y * width + x) * 4 + i = y * (width * 4) + (x * 4 + i) := by ring
    rw [hidx]
    rw [flatMap_range_getElem _ (width * 4) hrow height y (x * 4 + i) hy
      (by calc x * 4 + i < x * 4 + 4 := by omega
            _ = (x + 1) * 4 := (Nat.succ_mul x 4).symm
            _ ≤ width * 4 := Nat.mul_le_mul_right 4 hx)]
    rw [flatMap_range_getElem _ 4 (fun _ => derive_pixel_bytes_length _ _) width x i hx hi]
  · simp [derive_pixel_bytes]
  · have hp : (if layer % 2 = 0 then (0xAA : ℕ) else 0x55) < 256 := by
      split <;> norm_num
    rcases (by omega : i = 0 ∨ i = 1 ∨ i = 2 ∨ i = 3) with h | h | h | h <;>
      subst h <;>
      simp [derive_pixel_bytes] <;>
      first
        | exact pyMask255_xor_lt _ _ hp
        | norm_num

/-- Witness for the amended claim C3, at layer 0, a 1×1 frame, pixel (0, 0),
byte position i = 3 (the alpha byte). -/
theorem claim_C3_witness :
    (visual_resonance_source.create_resonant_pixel_buffer 0 1 1).length = 1 * 1 * 4 ∧
    (visual_resonance_source.create_resonant_pixel_buffer 0 1 1)[(0 * 1 + 0) * 4 + 3]?
      = (derive_pixel_bytes 0 (visual_resonance_source.calculate_visual_resonance 0 0 0))[3]? ∧
    (derive_pixel_bytes 0 (visual_resonance_source.calculate_visual_resonance 0 0 0)).getD 3 0
      = 255 ∧
    (derive_pixel_bytes 0 (visual_resonance_source.calculate_visual_resonance 0 0 0)).getD 3 0
      < 256 :=
  claim_C3_buffer_bytes 0 1 1 0 0 3 (by norm_num) (by norm_num) (by norm_num)

/-- Total theoretical cascade energy named by claim C5: the sum over
d = 0..32 of exp(-α·d), at the source α = SCTT_ALPHA and L = SCTT_LAYERS = 33
(the quantity the driver's running total reaches when every layer records,
see the cascade model below). -/
noncomputable def cascadeSum : ℝ :=
  ∑ d ∈ Finset.range SCTT_LAYERS, layerEnergy SCTT_ALPHA d

/-- Helper: third-order lower bound exp(-α) ≥ 0.970248 for α = 0.0302011. -/
theorem exp_neg_alpha_lb : (970248 / 1000000 : ℝ) ≤ Real.exp (-SCTT_ALPHA) := by
  have hx : |(-SCTT_ALPHA : ℝ)| ≤ 1 := by
    rw [abs_le]; constructor <;> norm_num [SCTT_ALPHA]
  have h := @Real.exp_bound (-SCTT_ALPHA) hx 3 (by norm_num)
  have hsum : (∑ m ∈ Finset.range 3, (-SCTT_ALPHA) ^ m / (m.factorial : ℝ))
      = 1 - SCTT_ALPHA + SCTT_ALPHA ^ 2 / 2 := by
    rw [Finset.sum_range_succ, Finset.sum_range_succ, Finset.sum_range_succ,
      Finset.sum_range_zero]
    norm_num [Nat.factorial]
    ring
  have habs : |(-SCTT_ALPHA : ℝ)| = SCTT_ALPHA := by
    rw [abs_neg, abs_of_pos]
    norm_num [SCTT_ALPHA]
  rw [hsum, habs, abs_le] at h
  have h1 := h.1
  norm_num [Nat.factorial] at h1
  simp only [SCTT_ALPHA] at h1 ⊢
  norm_num at h1 ⊢
  linarith

/-- Helper: third-order upper bound exp(-α) ≤ 0.970262 for α = 0.0302011. -/
theorem exp_neg_alpha_ub : Real.exp (-SCTT_ALPHA) ≤ 970262 / 1000000 := by
  have hx : |(-SCTT_ALPHA : ℝ)| ≤ 1 := by
    rw [abs_le]; constructor <;> norm_num [SCTT_ALPHA]
  have h := @Real.exp_bound (-SCTT_ALPHA) hx 3 (by norm_num)
  have hsum : (∑ m ∈ Finset.range 3, (-SCTT_ALPHA) ^ m / (m.factorial : ℝ))
      = 1 - SCTT_ALPHA + SCTT_ALPHA ^ 2 / 2 := by
    rw [Finset.sum_range_succ, Finset.sum_range_succ, Finset.sum_range_succ,
      Finset.sum_range_zero]
    norm_num [Nat.factorial]
    ring
  have habs : |(-SCTT_ALPHA : ℝ)| = SCTT_ALPHA := by
    rw [abs_neg, abs_of_pos]
    norm_num [SCTT_ALPHA]
  rw [hsum, habs, abs_le] at h
  have h2 := h.2
  norm_num [Nat.factorial] at h2
  simp only [SCTT_ALPHA] at h2 ⊢
  norm_num at h2 ⊢
  linarith

/-- Helper: the cascade sum is the geometric sum of powers of exp(-α). -/
theorem cascadeSum_eq_powsum :
    cascadeSum = ∑ d ∈ Finset.range 33, Real.exp (-SCTT_ALPHA) ^ d := by
  unfold cascadeSum layerEnergy SCTT_LAYERS
  apply Finset.sum_congr rfl
  intro d _
  rw [← Real.exp_nat_mul]
  congr 1
  ring

/-- Helper: rigorous lower bound 21.15 on the cascade sum. -/
theorem cascadeSum_lb : (2115 / 100 : ℝ) ≤ cascadeSum := by
  rw [cascadeSum_eq_powsum]
  have hstep : ∀ d ∈ Finset.range 33,
      (970248 / 1000000 : ℝ) ^ d ≤ Real.exp (-SCTT_ALPHA) ^ d :=
    fun d _ => pow_le_pow_left₀ (by norm_num) exp_neg_alpha_lb d
  calc (2115 / 100 : ℝ)
      ≤ ∑ d ∈ Finset.range 33, (970248 / 1000000 : ℝ) ^ d := by
        rw [geom_sum_eq (by norm_num) 33]
        norm_num
    _ ≤ ∑ d ∈ Finset.range 33, Real.exp (-SCTT_ALPHA) ^ d := Finset.sum_le_sum hstep

/-- Helper: rigorous upper bound 21.27 on the cascade sum. -/
theorem cascadeSum_ub : cascadeSum ≤ 2127 / 100 := by
  rw [cascadeSum_eq_powsum]
  have hstep : ∀ d ∈ Finset.range 33,
      Real.exp (-SCTT_ALPHA) ^ d ≤ (970262 / 1000000 : ℝ) ^ d :=
    fun d _ => pow_le_pow_left₀ (Real.exp_pos _).le exp_neg_alpha_ub d
  calc (∑ d ∈ Finset.range 33, Real.exp (-SCTT_ALPHA) ^ d)
      ≤ ∑ d ∈ Finset.range 33, (970262 / 1000000 : ℝ) ^ d := Finset.sum_le_sum hstep
    _ ≤ 2127 / 100 := by
        rw [geom_sum_eq (by norm_num) 33]
        norm_num

/-- Counterexample to claim C5 as stated: the total theoretical cascade sum
Σ exp(-α·d) for d = 0..32 is not within 0.5% of 20.58 — it exceeds 21.15,
while 0.5% around 20.58 reaches only 20.6829. -/
theorem claim_C5_counterexample : ¬ (|cascadeSum - 20.58| ≤ 0.005 * 20.58) := by
  intro h
  have h1 := (abs_le.mp h).2
  have h2 := cascadeSum_lb
  norm_num at h1 h2
  linarith

/-- Claim C5, amended: for α = 0.0302011 and L = 33 the total theoretical
cascade sum Σ exp(-α·d), d = 0..32, equals approximately 21.21 with relative
error at most 0.5%. -/
theorem claim_C5_cascade_sum : |cascadeSum - 21.21| ≤ 0.005 * 21.21 := by
  rw [abs_le]
  have h1 := cascadeSum_lb
  have h2 := cascadeSum_ub
  norm_num at h1 h2 ⊢
  constructor <;> linarith

/-- Marks the spec's `InvalidConfiguration` error channel (the source defines
no such exception; the type exists to state the spec's claim). -/
inductive InvalidConfiguration : Type
  | mk

/-- Embeds `SCTT_VisualResonance.__init__` (lines 36-45) as a constructor over
the configuration surface it reads (the module globals α and L): the body only
assigns fields — `self.alpha`, `self.layers`, the hard-coded nonempty
`prime_windows` and two sink constants — and contains no validation and no
raise, so it always returns `Except.ok`.  The `Except` codomain exists only to
state the spec's claimed `InvalidConfiguration` rejection. -/
noncomputable def SCTT_VisualResonance.init (alpha0 : ℝ) (layers0 : ℕ) :
    Except InvalidConfiguration SCTT_VisualResonance :=
  Except.ok
    { alpha := alpha0
      layers := layers0
      prime_windows := [10007, 10009, 10037, 10039, 10061] }

/-- Embeds the state of `SCTT_DWM_Vortex` (lines 121-131) together with the
driver-visible counters of `execute_visual_singularity` (lines 238-337):
`layer_energies` and `total_cascade_energy` are the fields of lines 130-131;
`successful_layers` is the local counter of line 275; `attempted_layers`
counts executed iterations of the `for layer in range(SCTT_LAYERS)` loop;
`failure_logs` counts layers whose failure is logged (the except-branch print
of line 235 paired with the failed-status print of line 302, counted once per
failed layer); `payload_invocations` counts calls of
`_execute_singularity_payload` (line 300); `delivered` records, in order, the
layers whose record-and-display block ran (`BitBlt`, line 219).  The window
handles belong to the external display sink. -/
structure SCTT_DWM_Vortex where
  resonance : SCTT_VisualResonance
  layer_energies : List ℝ
  total_cascade_energy : ℝ
  successful_layers : ℕ
  attempted_layers : ℕ
  failure_logs : ℕ
  payload_invocations : ℕ
  delivered : List ℕ

/-- Embeds `SCTT_DWM_Vortex.__init__` (lines 121-131) over the same
configuration surface: no validation, always `Except.ok`; the energy array
starts as `[0.0] * layers0` and the running total, like all counters, at 0. -/
noncomputable def SCTT_DWM_Vortex.init (alpha0 : ℝ) (layers0 : ℕ) :
    Except InvalidConfiguration SCTT_DWM_Vortex :=
  Except.ok
    { resonance :=
        { alpha := alpha0
          layers := layers0
          prime_windows := [10007, 10009, 10037, 10039, 10061] }
      layer_energies := List.replicate layers0 0
      total_cascade_energy := 0
      successful_layers := 0
      attempted_layers := 0
      failure_logs := 0
      payload_invocations := 0
      delivered := [] }

/-- Embeds the vortex state built by `SCTT_DWM_Vortex()` from the source
module constants, the state in which the cascade loop starts. -/
noncomputable def vortex_source : SCTT_DWM_Vortex :=
  { resonance := visual_resonance_source
    layer_energies := List.replicate SCTT_LAYERS 0
    total_cascade_energy := 0
    successful_layers := 0
    attempted_layers := 0
    failure_logs := 0
    payload_invocations := 0
    delivered := [] }

/-- Models the externally determined outcome of one call of
`induce_frame_buffer_resonance` (lines 178-236).  The `try` block and the
NULL checks on the GDI handles are its only branch points: `earlyExc` is an
exception raised before the bitmap block (timing, buffer creation, or
`CreateDIBSection` raising); `nullBitmap` is `CreateDIBSection` returning
NULL (line 204 — the whole record-and-display block is skipped yet the call
still returns True); `nullBufPtr` is `GetObjectW` returning NULL (line 207 —
likewise skipped, True); `lateExc` is an exception raised at `DwmFlush` after
the energy was recorded and the bitmap displayed; `ok` is the fully
successful path. -/
inductive LayerEvent : Type
  | earlyExc
  | nullBitmap
  | nullBufPtr
  | lateExc
  | ok

/-- Tells whether an event takes the record-and-display branch of
lines 210-223: the energy statistics are written and the bitmap delivered
exactly on these paths. -/
def LayerEvent.records : LayerEvent → Bool
  | .lateExc => true
  | .ok => true
  | _ => false

/-- Tells the Boolean value `induce_frame_buffer_resonance` returns for an
event: exceptions are caught by the `except` of line 234 and give False
(line 236); every other path returns True (line 232). -/
def LayerEvent.result : LayerEvent → Bool
  | .earlyExc => false
  | .lateExc => false
  | _ => true

/-- Models Python truthiness of the optional `payload: bytes` argument at
line 299 (`if payload:`): supplied and nonempty. -/
def payloadTruthy : Option (List ℕ) → Bool
  | none => false
  | some p => !p.isEmpty

/-- Embeds lines 210-213 and 219: compute
`layer_energy = np.exp(-SCTT_ALPHA * layer)`, store it at index `layer`, add
it to the running total, and deliver the bitmap (`BitBlt`). -/
noncomputable def SCTT_DWM_Vortex.record_layer (st : SCTT_DWM_Vortex) (layer : ℕ) :
    SCTT_DWM_Vortex :=
  { st with
    layer_energies := st.layer_energies.set layer (layerEnergy SCTT_ALPHA layer)
    total_cascade_energy := st.total_cascade_energy + layerEnergy SCTT_ALPHA layer
    delivered := st.delivered ++ [layer] }

/-- Embeds `induce_frame_buffer_resonance` (lines 178-236) for one layer as a
state transformer returning the Python Boolean result, the external outcome
given by the event: the `try`/`except` catches every exception and returns
False; the NULL-handle paths skip the record block and return True; the
recording paths update the statistics before the call finishes. -/
noncomputable def SCTT_DWM_Vortex.induce_frame_buffer_resonance
    (st : SCTT_DWM_Vortex) (layer : ℕ) (ev : LayerEvent) : SCTT_DWM_Vortex × Bool :=
  match ev with
  | .earlyExc => (st, false)
  | .nullBitmap => (st, true)
  | .nullBufPtr => (st, true)
  | .lateExc => (st.record_layer layer, false)
  | .ok => (st.record_layer layer, true)

/-- Embeds one iteration of the cascade loop of `execute_visual_singularity`
(lines 276-305): run `induce_frame_buffer_resonance`; on True increment the
success counter and, only at `layer == 32` with a truthy payload, call
`_execute_singularity_payload` once (lines 292-300); on False log the
failure (line 302).  Every iteration advances the attempt counter. -/
noncomputable def cascadeStep (events : ℕ → LayerEvent) (payload : Option (List ℕ))
    (st : SCTT_DWM_Vortex) (layer : ℕ) : SCTT_DWM_Vortex :=
  let res := st.induce_frame_buffer_resonance layer (events layer)
  let st1 := { res.1 with attempted_layers := res.1.attempted_layers + 1 }
  if res.2 then
    let st2 := { st1 with successful_layers := st1.successful_layers + 1 }
    if layer == 32 && payloadTruthy payload then
      { st2 with payload_invocations := st2.payload_invocations + 1 }
    else st2
  else { st1 with failure_logs := st1.failure_logs + 1 }

/-- Embeds the first k iterations of the cascade loop (line 276,
`for layer in range(SCTT_LAYERS)`), starting from the freshly built vortex. -/
noncomputable def execute_visual_singularity_upto (events : ℕ → LayerEvent)
    (payload : Option (List ℕ)) (k : ℕ) : SCTT_DWM_Vortex :=
  (List.range k).foldl (cascadeStep events payload) vortex_source

/-- Embeds the full 33-iteration cascade loop of
`execute_visual_singularity` (lines 238-337). -/
noncomputable def execute_visual_singularity (events : ℕ → LayerEvent)
    (payload : Option (List ℕ)) : SCTT_DWM_Vortex :=
  execute_visual_singularity_upto events payload SCTT_LAYERS

/-- Helper: one more loop iteration is one more step. -/
theorem upto_succ (events : ℕ → LayerEvent) (payload : Option (List ℕ)) (k : ℕ) :
    execute_visual_singularity_upto events payload (k + 1)
      = cascadeStep events payload (execute_visual_singularity_upto events payload k) k := by
  unfold execute_visual_singularity_upto
  rw [List.range_succ, List.foldl_append, List.foldl_cons, List.foldl_nil]

/-- Helper: every loop iteration advances the attempt counter by one. -/
theorem cascadeStep_attempted (events : ℕ → LayerEvent) (payload : Option (List ℕ))
    (st : SCTT_DWM_Vortex) (layer : ℕ) :
    (cascadeStep events payload st layer).attempted_layers = st.attempted_layers + 1 := by
  cases hev : events layer <;>
    simp [cascadeStep, SCTT_DWM_Vortex.induce_frame_buffer_resonance,
      SCTT_DWM_Vortex.record_layer, hev] <;>
    split_ifs <;> rfl

/-- Helper: the energy array is written exactly on recording events. -/
theorem cascadeStep_energies (events : ℕ → LayerEvent) (payload : Option (List ℕ))
    (st : SCTT_DWM_Vortex) (layer : ℕ) :
    (cascadeStep events payload st layer).layer_energies
      = if (events layer).records
          then st.layer_energies.set layer (layerEnergy SCTT_ALPHA layer)
          else st.layer_energies := by
  cases hev : events layer <;>
    simp [cascadeStep, SCTT_DWM_Vortex.induce_frame_buffer_resonance,
      SCTT_DWM_Vortex.record_layer, LayerEvent.records, hev] <;>
    split_ifs <;> rfl

/-- Helper: the running total grows by the layer energy exactly on recording
events. -/
theorem cascadeStep_total (events : ℕ → LayerEvent) (payload : Option (List ℕ))
    (st : SCTT_DWM_Vortex) (layer : ℕ) :
    (cascadeStep events payload st layer).total_cascade_energy
      = st.total_cascade_energy
        + (if (events layer).records then layerEnergy SCTT_ALPHA layer else 0) := by
  cases hev : events layer <;>
    simp [cascadeStep, SCTT_DWM_Vortex.induce_frame_buffer_resonance,
      SCTT_DWM_Vortex.record_layer, LayerEvent.records, hev] <;>
    split_ifs <;> rfl

/-- Helper: the success counter grows exactly on True results. -/
theorem cascadeStep_successful (events : ℕ → LayerEvent) (payload : Option (List ℕ))
    (st : SCTT_DWM_Vortex) (layer : ℕ) :
    (cascadeStep events payload st layer).successful_layers
      = st.successful_layers + (if (events layer).result then 1 else 0) := by
  cases hev : events layer <;>
    simp [cascadeStep, SCTT_DWM_Vortex.induce_frame_buffer_resonance,
      SCTT_DWM_Vortex.record_layer, LayerEvent.result, hev] <;>
    split_ifs <;> rfl

/-- Helper: a failure log is emitted exactly on False results. -/
theorem cascadeStep_logs (events : ℕ → LayerEvent) (payload : Option (List ℕ))
    (st : SCTT_DWM_Vortex) (layer : ℕ) :
    (cascadeStep events payload st layer).failure_logs
      = st.failure_logs + (if (events layer).result then 0 else 1) := by
  cases hev : events layer <;>
    simp [cascadeStep, SCTT_DWM_Vortex.induce_frame_buffer_resonance,
      SCTT_DWM_Vortex.record_layer, LayerEvent.result, hev] <;>
    split_ifs <;> rfl

/-- Helper: a bitmap delivery happens exactly on recording events. -/
theorem cascadeStep_delivered (events : ℕ → LayerEvent) (payload : Option (List ℕ))
    (st : SCTT_DWM_Vortex) (layer : ℕ) :
    (cascadeStep events payload st layer).delivered
      = if (events layer).records then st.delivered ++ [layer] else st.delivered := by
  cases hev : events layer <;>
    simp [cascadeStep, SCTT_DWM_Vortex.induce_frame_buffer_resonance,
      SCTT_DWM_Vortex.record_layer, LayerEvent.records, hev] <;>
    split_ifs <;> rfl

/-- Helper: the payload hook fires exactly on a True result at layer 32 with
a truthy payload. -/
theorem cascadeStep_payload (events : ℕ → LayerEvent) (payload : Option (List ℕ))
    (st : SCTT_DWM_Vortex) (layer : ℕ) :
    (cascadeStep events payload st layer).payload_invocations
      = st.payload_invocations
        + (if (events layer).result && (layer == 32) && payloadTruthy payload
            then 1 else 0) := by
  cases hev : events layer <;>
    simp [cascadeStep, SCTT_DWM_Vortex.induce_frame_buffer_resonance,
      SCTT_DWM_Vortex.record_layer, LayerEvent.result, hev] <;>
    split_ifs <;> simp_all

/-- Helper: the cascade loop attempts exactly one layer per iteration. -/
theorem upto_attempted (events : ℕ → LayerEvent) (payload : Option (List ℕ)) (k : ℕ) :
    (execute_visual_singularity_upto events payload k).attempted_layers = k := by
  induction k with
  | zero => simp [execute_visual_singularity_upto, vortex_source]
  | succ k ih => rw [upto_succ, cascadeStep_attempted, ih]

/-- Helper: the energy array keeps its 33 slots throughout the cascade. -/
theorem upto_energies_length (events : ℕ → LayerEvent) (payload : Option (List ℕ)) (k : ℕ) :
    (execute_visual_singularity_upto events payload k).layer_energies.length = 33 := by
  induction k with
  | zero => simp [execute_visual_singularity_upto, vortex_source, SCTT_LAYERS]
  | succ k ih =>
    rw [upto_succ, cascadeStep_energies]
    split_ifs <;> simp [List.length_set, ih]

/-- Helper: after k iterations, slot l of the energy array holds
layerEnergy(l) if layer l was processed with a recording event, and its
initial 0 otherwise. -/
theorem upto_energies (events : ℕ → LayerEvent) (payload : Option (List ℕ)) (k : ℕ)
    (hk : k ≤ 33) (l : ℕ) (hl : l < 33) :
    (execute_visual_singularity_upto events payload k).layer_energies[l]?
      = some (if l < k ∧ (events l).records = true then layerEnergy SCTT_ALPHA l else 0) := by
  revert hk
  induction k with
  | zero =>
    intro _
    have h0 : (execute_visual_singularity_upto events payload 0).layer_energies
        = List.replicate 33 (0 : ℝ) := by
      simp [execute_visual_singularity_upto, vortex_source, SCTT_LAYERS]
    rw [h0, List.getElem?_replicate]
    simp [hl]
  | succ k ih =>
    intro hk
    have ihh := ih (by omega)
    rw [upto_succ, cascadeStep_energies]
    by_cases hr : (events k).records
    · rw [if_pos hr]
      by_cases hlk : l = k
      · subst hlk
        rw [List.getElem?_set_self (by rw [upto_energies_length]; omega)]
        rw [if_pos ⟨by omega, hr⟩]
      · rw [List.getElem?_set_ne (fun h => hlk h.symm), ihh]
        congr 1
        apply if_congr _ rfl rfl
        constructor
        · rintro ⟨h1, h2⟩; exact ⟨by omega, h2⟩
        · rintro ⟨h1, h2⟩
          refine ⟨?_, h2⟩
          omega
    · rw [if_neg hr, ihh]
      congr 1
      apply if_congr _ rfl rfl
      constructor
      · rintro ⟨h1, h2⟩; exact ⟨by omega, h2⟩
      · rintro ⟨h1, h2⟩
        refine ⟨?_, h2⟩
        rcases Nat.lt_succ_iff_lt_or_eq.mp h1 with h | h
        · exact h
        · subst h; exact absurd h2 hr

/-- Helper: after k iterations the running total is the sum of the energies
of the recorded layers among 0..k-1. -/
theorem upto_total (events : ℕ → LayerEvent) (payload : Option (List ℕ)) (k : ℕ) :
    (execute_visual_singularity_upto events payload k).total_cascade_energy
      = (((List.range k).filter fun l => (events l).records).map
          fun l => layerEnergy SCTT_ALPHA l).sum := by
  induction k with
  | zero => simp [execute_visual_singularity_upto, vortex_source]
  | succ k ih =>
    rw [upto_succ, cascadeStep_total, ih, List.range_succ, List.filter_append]
    by_cases hr : (events k).records <;> simp [hr]

/-- Helper: after k iterations the success counter equals the number of
layers among 0..k-1 whose per-layer call returned True. -/
theorem upto_successful (events : ℕ → LayerEvent) (payload : Option (List ℕ)) (k : ℕ) :
    (execute_visual_singularity_upto events payload k).successful_layers
      = ((List.range k).filter fun l => (events l).result).length := by
  induction k with
  | zero => simp [execute_visual_singularity_upto, vortex_source]
  | succ k ih =>
    rw [upto_succ, cascadeStep_successful, ih, List.range_succ, List.filter_append]
    by_cases hr : (events k).result <;> simp [hr]

/-- Helper: after k iterations one failure was logged per False result. -/
theorem upto_logs (events : ℕ → LayerEvent) (payload : Option (List ℕ)) (k : ℕ) :
    (execute_visual_singularity_upto events payload k).failure_logs
      = ((List.range k).filter fun l => !(events l).result).length := by
  induction k with
  | zero => simp [execute_visual_singularity_upto, vortex_source]
  | succ k ih =>
    rw [upto_succ, cascadeStep_logs, ih, List.range_succ, List.filter_append]
    by_cases hr : (events k).result <;> simp [hr]

/-- Helper: after k iterations the delivered layers are exactly the recorded
layers among 0..k-1, in order. -/
theorem upto_delivered (events : ℕ → LayerEvent) (payload : Option (List ℕ)) (k : ℕ) :
    (execute_visual_singularity_upto events payload k).delivered
      = (List.range k).filter fun l => (events l).records := by
  induction k with
  | zero => simp [execute_visual_singularity_upto, vortex_source]
  | succ k ih =>
    rw [upto_succ, cascadeStep_delivered, ih, List.range_succ, List.filter_append]
    by_cases hr : (events k).records <;> simp [hr]

/-- Helper: the payload hook has fired (once) after k ≤ 33 iterations exactly
when the loop has passed layer 32 with a True result and a truthy payload. -/
theorem upto_payload (events : ℕ → LayerEvent) (payload : Option (List ℕ)) (k : ℕ)
    (hk : k ≤ 33) :
    (execute_visual_singularity_upto events payload k).payload_invocations
      = if k = 33 ∧ (events 32).result = true ∧ payloadTruthy payload = true
          then 1 else 0 := by
  revert hk
  induction k with
  | zero => intro _; simp [execute_visual_singularity_upto, vortex_source]
  | succ k ih =>
    intro hk
    rw [upto_succ, cascadeStep_payload, ih (by omega)]
    by_cases h32 : k = 32
    · subst h32
      by_cases hr : (events 32).result <;> by_cases ht : payloadTruthy payload <;>
        simp [hr, ht]
    · have h1 : (k == 32) = false := by simp [h32]
      have h2 : ¬(k + 1 = 33) := by omega
      have h3 : ¬(k = 33) := by omega
      simp [h1, h2, h3]

/-- Counterexample to claim C6 as stated: constructing with the invalid
configuration α = -1 ≤ 0, L = 0 (and, for the vortex, the induced empty
energy array) raises nothing — both constructors return `Except.ok`, for the
source contains no validation and no `InvalidConfiguration` at all. -/
theorem claim_C6_counterexample :
    ((-1 : ℝ) ≤ 0) ∧
    SCTT_VisualResonance.init (-1) 0
      = Except.ok
          { alpha := -1
            layers := 0
            prime_windows := [10007, 10009, 10037, 10039, 10061] } ∧
    (SCTT_DWM_Vortex.init (-1) 0).isOk = true :=
  ⟨by norm_num, rfl, rfl⟩

/-- Claim C6, amended: both constructors accept every configuration without
validation and always succeed (no `InvalidConfiguration` is ever raised —
none exists in the program); the built-in configuration is in fact valid:
α = 0.0302011 > 0, L = 33 > 0 and the alignment periods are nonempty, so no
layer ever runs under an invalid configuration. -/
theorem claim_C6_construction_unvalidated (alpha0 : ℝ) (layers0 : ℕ) :
    (SCTT_VisualResonance.init alpha0 layers0).isOk = true ∧
    (SCTT_DWM_Vortex.init alpha0 layers0).isOk = true ∧
    0 < visual_resonance_source.alpha ∧
    0 < visual_resonance_source.layers ∧
    visual_resonance_source.prime_windows ≠ [] := by
  refine ⟨rfl, rfl, ?_, ?_, ?_⟩
  · norm_num [visual_resonance_source, SCTT_ALPHA]
  · norm_num [visual_resonance_source, SCTT_LAYERS]
  · simp [visual_resonance_source]

/-- Counterexample to claim C7 as stated: in the run in which every layer's
DwmFlush raises after the statistics were written (event `lateExc`), slot 0
holds layerEnergy(0) ≠ 0 although not a single layer completed (the success
counter is 0) — so entries are not written "after that layer completes". -/
theorem claim_C7_counterexample :
    (execute_visual_singularity (fun _ => LayerEvent.lateExc) none).layer_energies[0]?
      = some (layerEnergy SCTT_ALPHA 0) ∧
    layerEnergy SCTT_ALPHA 0 ≠ 0 ∧
    (execute_visual_singularity (fun _ => LayerEvent.lateExc) none).successful_layers
      = 0 := by
  refine ⟨?_, ?_, ?_⟩
  · show (execute_visual_singularity_upto (fun _ => LayerEvent.lateExc) none 33).layer_energies[0]?
      = some (layerEnergy SCTT_ALPHA 0)
    rw [upto_energies _ _ 33 (by norm_num) 0 (by norm_num)]
    simp [LayerEvent.records]
  · unfold layerEnergy
    exact Real.exp_ne_zero _
  · show (execute_visual_singularity_upto (fun _ => LayerEvent.lateExc) none 33).successful_layers
      = 0
    rw [upto_successful]
    simp [LayerEvent.result]

/-- Claim C7, amended: every statistics slot starts at 0 and is written at
most once — set to layerEnergy(layer) at index layer during that layer's
processing, after the bitmap query succeeds but before delivery finishes, so
a layer that fails later in the same call may still be recorded — and at
every point of the cascade the running total equals the sum of the energies
of exactly the recorded layers; a never-recorded slot stays 0. -/
theorem claim_C7_statistics (events : ℕ → LayerEvent) (payload : Option (List ℕ))
    (k l : ℕ) (hk : k ≤ 33) (hl : l < 33) :
    vortex_source.layer_energies[l]? = some 0 ∧
    (execute_visual_singularity_upto events payload k).layer_energies.length = 33 ∧
    (execute_visual_singularity_upto events payload k).layer_energies[l]?
      = some (if l < k ∧ (events l).records = true
                then layerEnergy SCTT_ALPHA l else 0) ∧
    (execute_visual_singularity_upto events payload k).total_cascade_energy
      = (((List.range k).filter fun i => (events i).records).map
          fun i => layerEnergy SCTT_ALPHA i).sum := by
  refine ⟨?_, upto_energies_length _ _ _, upto_energies _ _ _ hk _ hl, upto_total _ _ _⟩
  have h0 : vortex_source.layer_energies = List.replicate 33 (0 : ℝ) := by
    simp [vortex_source, SCTT_LAYERS]
  rw [h0, List.getElem?_replicate]
  simp [hl]

/-- Witness for the amended claim C7, at the all-successful run, k = 33,
slot l = 0. -/
theorem claim_C7_witness :
    vortex_source.layer_energies[0]? = some 0 ∧
    (execute_visual_singularity_upto (fun _ => LayerEvent.ok) none 33).layer_energies.length
      = 33 ∧
    (execute_visual_singularity_upto (fun _ => LayerEvent.ok) none 33).layer_energies[0]?
      = some (if 0 < 33 ∧ LayerEvent.ok.records = true
                then layerEnergy SCTT_ALPHA 0 else 0) ∧
    (execute_visual_singularity_upto (fun _ => LayerEvent.ok) none 33).total_cascade_energy
      = (((List.range 33).filter fun i => LayerEvent.ok.records).map
          fun i => layerEnergy SCTT_ALPHA i).sum :=
  claim_C7_statistics (fun _ => LayerEvent.ok) none 33 0 (by norm_num) (by norm_num)

/-- Claim C8: the cascade always attempts all 33 layers, whatever the
per-layer outcomes — failures only shift layers from the success count to
the logged-failure count, and the per-layer call catches its exceptions,
returning False with the state of the moment of the raise instead of
propagating a fatal error. -/
theorem claim_C8_failures_contained (events : ℕ → LayerEvent)
    (payload : Option (List ℕ)) (st : SCTT_DWM_Vortex) (layer : ℕ) :
    (execute_visual_singularity events payload).attempted_layers = 33 ∧
    (execute_visual_singularity events payload).successful_layers
      = ((List.range 33).filter fun l => (events l).result).length ∧
    (execute_visual_singularity events payload).failure_logs
      = ((List.range 33).filter fun l => !(events l).result).length ∧
    (st.induce_frame_buffer_resonance layer LayerEvent.earlyExc).2 = false ∧
    (st.induce_frame_buffer_resonance layer LayerEvent.lateExc).2 = false ∧
    (st.induce_frame_buffer_resonance layer LayerEvent.earlyExc).1 = st :=
  ⟨upto_attempted events payload 33, upto_successful events payload 33,
    upto_logs events payload 33, rfl, rfl, rfl⟩

/-- Counterexample to claim C9 as stated: in the run in which
`CreateDIBSection` returns NULL at layer 32 (and all else succeeds), the
payload hook fires exactly once even though layer 32's buffer was never
delivered to the sink — no `BitBlt` ran and its energy slot is still 0 —
because the source gates the hook only on the Boolean result of
`induce_frame_buffer_resonance`, which is True on the NULL-bitmap path. -/
theorem claim_C9_counterexample :
    (execute_visual_singularity
        (fun l => if l = 32 then LayerEvent.nullBitmap else LayerEvent.ok)
        (some [144])).payload_invocations = 1 ∧
    32 ∉ (execute_visual_singularity
        (fun l => if l = 32 then LayerEvent.nullBitmap else LayerEvent.ok)
        (some [144])).delivered ∧
    (execute_visual_singularity
        (fun l => if l = 32 then LayerEvent.nullBitmap else LayerEvent.ok)
        (some [144])).layer_energies[32]? = some 0 := by
  refine ⟨?_, ?_, ?_⟩
  · show (execute_visual_singularity_upto
        (fun l => if l = 32 then LayerEvent.nullBitmap else LayerEvent.ok)
        (some [144]) 33).payload_invocations = 1
    rw [upto_payload _ _ 33 (by norm_num)]
    simp [LayerEvent.result, payloadTruthy]
  · show 32 ∉ (execute_visual_singularity_upto
        (fun l => if l = 32 then LayerEvent.nullBitmap else LayerEvent.ok)
        (some [144]) 33).delivered
    rw [upto_delivered]
    simp [List.mem_filter, LayerEvent.records]
  · show (execute_visual_singularity_upto
        (fun l => if l = 32 then LayerEvent.nullBitmap else LayerEvent.ok)
        (some [144]) 33).layer_energies[32]? = some 0
    rw [upto_energies _ _ 33 (by norm_num) 32 (by norm_num)]
    simp [LayerEvent.records]

/-- Claim C9, amended: the payload hook fires at most once per run, never
before the final loop iteration (layer 32), never when no (or an empty)
payload was supplied, and exactly when the final iteration's per-layer call
reports success — which, on the NULL-handle paths, can happen without the
final buffer having been delivered. -/
theorem claim_C9_payload_once (events : ℕ → LayerEvent) (payload : Option (List ℕ))
    (k : ℕ) :
    (execute_visual_singularity events payload).payload_invocations
      = (if (events 32).result = true ∧ payloadTruthy payload = true then 1 else 0) ∧
    (execute_visual_singularity events payload).payload_invocations ≤ 1 ∧
    (execute_visual_singularity_upto events payload (min k 32)).payload_invocations = 0 ∧
    payloadTruthy none = false := by
  have h33 := upto_payload events payload 33 (by norm_num)
  have hmin := upto_payload events payload (min k 32) (by omega)
  refine ⟨?_, ?_, ?_, rfl⟩
  · show (execute_visual_singularity_upto events payload 33).payload_invocations = _
    rw [h33]
    simp
  · show (execute_visual_singularity_upto events payload 33).payload_invocations ≤ 1
    rw [h33]
    split_ifs <;> norm_num
  · rw [hmin]
    have hne : ¬(min k 32 = 33) := by omega
    simp [hne]
